import Mathlib

/-!
# The NSFW detector of `internal/nsfw/detector.go`

A shallow embedding of the Go package `nsfw`: the `Detector` with its lazily
loaded TensorFlow model, the file and byte entry points `LabelsFromFile` and
`Labels`, the label file loader, the positional mapping `getLabels`, and the
image transformation graph.

Conventions of the embedding:

* A Go method with a pointer receiver takes the detector and returns the
  updated detector.
* The collaborators outside the package (file system, MIME sniffing, the
  TensorFlow runtime) are the fields of `Env`; every call to one of them is
  appended to a `Trace`, so that theorems can say which calls were made.
* A Go run-time panic (index out of range, failed type assertion, nil
  dereference) is the `Except.error` case of `Except Fault _`; a Go `error`
  return value is an `Option Error` or an `Except Error _` inside the result.
* Logging calls are omitted: they do not influence the results.
-/

namespace Nsfw

/-! ## Values -/

/-- Go `error` values, identified by their message. -/
abbrev Error := String

/-- Go `float32`. The package never computes with such a value, it only moves
it from the output tensor into the result, so a value is represented by its
IEEE-754 single precision bit pattern. -/
structure Float32 where
  bits : Nat
deriving DecidableEq, Repr

/-- Modelled from the spec: the struct `Labels` is declared in another file of
the package, which is not among the sources; the spec describes it as a fixed
record of five floating-point scores Drawing, Hentai, Neutral, Porn, Sexy, and
`getLabels` assigns exactly these five `float32` fields. -/
structure Labels where
  Drawing : Float32
  Hentai : Float32
  Neutral : Float32
  Porn : Float32
  Sexy : Float32
deriving DecidableEq, Repr

/-- The Go zero value of `Labels`, the initial value of the named result
`result Labels`. -/
def Labels.zero : Labels :=
  { Drawing := ⟨0⟩, Hentai := ⟨0⟩, Neutral := ⟨0⟩, Porn := ⟨0⟩, Sexy := ⟨0⟩ }

/-- Go run-time panics that the package can raise. -/
inductive Fault where
  | indexOutOfRange (index length : Nat)
  | typeAssertion
  | nilDereference
deriving DecidableEq, Repr

/-- Go slice indexing `xs[i]`: panics when `i` is not below the length. -/
def index {α : Type} (xs : List α) (i : Nat) : Except Fault α :=
  match xs[i]? with
  | some x => .ok x
  | none => .error (.indexOutOfRange i xs.length)

/-- The handle `*tf.SavedModel` returned by the TensorFlow binding. -/
structure SavedModel where
  handle : Nat
deriving DecidableEq, Repr

/-- The dynamic value `Tensor.Value()` of a tensor, an `interface{}`: the
detector asserts it to be a `[][]float32`. -/
inductive TensorValue where
  | float32Matrix (rows : List (List Float32))
  | stringScalar (s : List Char)
  | other (tag : Nat)
deriving DecidableEq, Repr

/-- A `*tf.Tensor`. -/
structure Tensor where
  Value : TensorValue
deriving DecidableEq, Repr

/-! ## The image transformation graph -/

/-- The TensorFlow element types used by the graph. -/
inductive DataType where
  | String
  | Float
  | Int32
deriving DecidableEq, Repr

/-- A `tf.Output` of the transformation graph, as the tree of operations that
computes it. Constants carry the name of their sub-scope. -/
inductive Output where
  | Placeholder (dtype : DataType)
  | ConstInt32 (scope : String) (value : Int)
  | ConstInt32s (scope : String) (value : List Int)
  | ConstFloat (scope : String) (value : Float32)
  | DecodePng (contents : Output) (channels : Nat)
  | DecodeJpeg (contents : Output) (channels : Nat)
  | Cast (x : Output) (dstT : DataType)
  | ExpandDims (input dim : Output)
  | ResizeBilinear (images size : Output)
  | Sub (x y : Output)
  | Div (x y : Output)
deriving DecidableEq, Repr

/-- A finalized `*tf.Graph`, given by the output it was built for. -/
structure Graph where
  root : Output
deriving DecidableEq, Repr

/-! ## Collaborators -/

/-- An opened file as the scanner sees it: the bytes that can be read (one
`Char` per byte) and the error, if any, that the read after the last byte
reports instead of end-of-file. -/
structure File where
  data : List Char
  readErr : Option Error
deriving DecidableEq, Repr

/-- The functions of other packages that the detector calls. -/
structure Env where
  /-- The helper `util.MimeType`. -/
  MimeType : String → String
  /-- The call `ioutil.ReadFile`. -/
  ReadFile : String → Except Error (List Char)
  /-- The call `os.Open`. -/
  Open : String → Except Error File
  /-- The call `tf.LoadSavedModel` (export directory, tags). -/
  LoadSavedModel : String → List String → Except Error SavedModel
  /-- The call `model.Session.Run` with one feed, the output 0 of the operation
  named by the first string, and one fetch, the output 0 of the operation named
  by the second string. -/
  ModelRun : SavedModel → String → Tensor → String → Except Error (List Tensor)
  /-- The call `tf.NewTensor` on a string. -/
  NewTensor : List Char → Except Error Tensor
  /-- The error of `Scope.Finalize` for the scope that built the given output. -/
  Finalize : Output → Option Error
  /-- The error of `tf.NewSession`. -/
  NewSession : Graph → Option Error
  /-- The call `session.Run` of the transformation session: graph, fed output,
  fed tensor, fetched output. -/
  SessionRun : Graph → Output → Tensor → Output → Except Error (List Tensor)

/-- One call to a collaborator. -/
inductive Call where
  | MimeType (filename : String)
  | ReadFile (filename : String)
  | Open (name : String)
  | LoadSavedModel (exportDir : String) (tags : List String)
  | ModelRun (model : SavedModel)
  | NewSession
  | SessionRun
deriving DecidableEq, Repr

/-- The calls made so far, oldest first. -/
abbrev Trace := List Call

/-! ## The detector -/

/-- The struct `Detector`. The pointer `model` is `none` when nil. -/
structure Detector where
  model : Option SavedModel
  modelPath : String
  modelTags : List String
  labels : List String
deriving DecidableEq, Repr

/-- The constructor `NewDetector`. -/
def NewDetector (modelPath : String) : Detector :=
  { model := none, modelPath := modelPath, modelTags := ["serve"], labels := [] }

/-- The method `Detector.getLabels`: five indexing expressions, evaluated in
order. -/
def Detector.getLabels (_t : Detector) (p : List Float32) : Except Fault Labels := do
  let drawing ← index p 0
  let hentai ← index p 1
  let neutral ← index p 2
  let porn ← index p 3
  let sexy ← index p 4
  pure { Drawing := drawing, Hentai := hentai, Neutral := neutral, Porn := porn, Sexy := sexy }

/-! ### Reading the label file -/

/-- The constant `bufio.MaxScanTokenSize`. -/
def MaxScanTokenSize : Nat := 64 * 1024

/-- The message of `bufio.ErrTooLong`. -/
def ErrTooLong : Error := "bufio.Scanner: token too long"

/-- The helper `dropCR` of `bufio.ScanLines`: removes one trailing carriage
return. -/
def dropCR (data : List Char) : List Char :=
  if data.getLast? = some '\r' then data.dropLast else data

/-- The string `scanner.Text()` for a line without its newline. -/
def lineText (line : List Char) : String :=
  String.mk (dropCR line)

/-- The loop `for scanner.Scan() { t.labels = append(t.labels, scanner.Text()) }`
followed by `scanner.Err()`, for a `bufio.Scanner` with the default split
function `ScanLines` and the default buffer limit. `labels` is the slice built
so far, `line` the bytes of the current line read so far, the last argument the
bytes not yet read. A newline ends the current line, which is appended as a
label (also when it is empty); at the end of the data a last line without
newline is appended when it is not empty; the scan stops with `ErrTooLong` as
soon as the buffer holds `MaxScanTokenSize` bytes without a newline. The result
is the final slice and the value of `scanner.Err()`. -/
def scanLabels (readErr : Option Error) (labels : List String) (line : List Char) :
    List Char → List String × Option Error
  | [] => if line = [] then (labels, readErr) else (labels ++ [lineText line], readErr)
  | c :: rest =>
    if c = '\n' then scanLabels readErr (labels ++ [lineText line]) [] rest
    else if MaxScanTokenSize ≤ (line ++ [c]).length then (labels, some ErrTooLong)
    else scanLabels readErr labels (line ++ [c]) rest

/-- The method `Detector.loadLabels`. -/
def Detector.loadLabels (env : Env) (t : Detector) (path : String) (tr : Trace) :
    Option Error × Detector × Trace :=
  let modelLabels := path ++ "/labels.txt"
  let tr := tr ++ [Call.Open modelLabels]
  match env.Open modelLabels with
  | .error err => (some err, t, tr)
  | .ok f =>
    let (labels, err) := scanLabels f.readErr t.labels [] f.data
    (err, { t with labels := labels }, tr)

/-- The method `Detector.loadModel`. -/
def Detector.loadModel (env : Env) (t : Detector) (tr : Trace) :
    Option Error × Detector × Trace :=
  match t.model with
  | some _ => (none, t, tr)
  | none =>
    let tr := tr ++ [Call.LoadSavedModel t.modelPath t.modelTags]
    match env.LoadSavedModel t.modelPath t.modelTags with
    | .error err => (some err, t, tr)
    | .ok model =>
      let t := { t with model := some model }
      t.loadLabels env t.modelPath tr

/-! ### Image to tensor -/

/-- The function `makeTransformImageGraph`: graph, input, output and the error
of `Finalize`. The constants `Mean = float32(117)` and `Scale = float32(1)` are
given by their bit patterns `0x42EA0000` and `0x3F800000`. -/
def makeTransformImageGraph (env : Env) (imageFormat : String) :
    Graph × Output × Output × Option Error :=
  let H : Int := 224
  let W : Int := 224
  let Mean : Float32 := ⟨0x42EA0000⟩
  let Scale : Float32 := ⟨0x3F800000⟩
  let input := Output.Placeholder DataType.String
  let decode :=
    if imageFormat = "png" then Output.DecodePng input 3 else Output.DecodeJpeg input 3
  let output :=
    Output.Div
      (Output.Sub
        (Output.ResizeBilinear
          (Output.ExpandDims
            (Output.Cast decode DataType.Float)
            (Output.ConstInt32 "make_batch" 0))
          (Output.ConstInt32s "size" [H, W]))
        (Output.ConstFloat "mean" Mean))
      (Output.ConstFloat "scale" Scale)
  (⟨output⟩, input, output, env.Finalize output)

/-- The function `makeTensorFromImage`. The pair `(*tf.Tensor, error)` is an
`Except Error Tensor`; the expression `normalized[0]` can panic. -/
def makeTensorFromImage (env : Env) (image : List Char) (imageFormat : String) (tr : Trace) :
    Except Fault (Except Error Tensor × Trace) :=
  match env.NewTensor image with
  | .error err => .ok (.error err, tr)
  | .ok tensor =>
    match makeTransformImageGraph env imageFormat with
    | (_, _, _, some err) => .ok (.error err, tr)
    | (graph, input, output, none) =>
      let tr := tr ++ [Call.NewSession]
      match env.NewSession graph with
      | some err => .ok (.error err, tr)
      | none =>
        let tr := tr ++ [Call.SessionRun]
        match env.SessionRun graph input tensor output with
        | .error err => .ok (.error err, tr)
        | .ok normalized =>
          match index normalized 0 with
          | .error f => .error f
          | .ok tensor0 => .ok (.ok tensor0, tr)

/-! ### Classification -/

/-- What a call of `Labels` or `LabelsFromFile` produces when it returns: the
pair `(result, err)`, the detector afterwards and the calls made. -/
abbrev Returned := (Labels × Option Error) × Detector × Trace

/-- The type assertion `v.([][]float32)`. -/
def assertFloat32Matrix : TensorValue → Except Fault (List (List Float32))
  | .float32Matrix rows => .ok rows
  | _ => .error Fault.typeAssertion

/-- The method `Detector.Labels`. -/
def Detector.Labels (env : Env) (t : Detector) (img : List Char) (tr : Trace) :
    Except Fault Returned :=
  let result := Labels.zero
  match t.loadModel env tr with
  | (some err, t, tr) => .ok ((result, some err), t, tr)
  | (none, t, tr) =>
    match makeTensorFromImage env img "jpeg" tr with
    | .error f => .error f
    | .ok (.error _, tr) => .ok ((result, some "invalid image"), t, tr)
    | .ok (.ok tensor, tr) =>
      match t.model with
      | none => .error Fault.nilDereference
      | some model =>
        let tr := tr ++ [Call.ModelRun model]
        match env.ModelRun model "input_tensor" tensor "nsfw_cls_model/final_prediction" with
        | .error _ => .ok ((result, some "could not run inference"), t, tr)
        | .ok output =>
          if output.length < 1 then
            .ok ((result, some "result is empty"), t, tr)
          else
            match index output 0 with
            | .error f => .error f
            | .ok output0 =>
              match assertFloat32Matrix output0.Value with
              | .error f => .error f
              | .ok rows =>
                match index rows 0 with
                | .error f => .error f
                | .ok p =>
                  match t.getLabels p with
                  | .error f => .error f
                  | .ok result => .ok ((result, none), t, tr)

/-- The method `Detector.LabelsFromFile`. -/
def Detector.LabelsFromFile (env : Env) (t : Detector) (filename : String) (tr : Trace) :
    Except Fault Returned :=
  let result := Labels.zero
  let tr := tr ++ [Call.MimeType filename]
  if env.MimeType filename ≠ "image/jpeg" then
    .ok ((result, some ("nsfw: \"" ++ filename ++ "\" is not a jpeg file")), t, tr)
  else
    let tr := tr ++ [Call.ReadFile filename]
    match env.ReadFile filename with
    | .error err => .ok ((result, some err), t, tr)
    | .ok imageBuffer => t.Labels env imageBuffer tr

/-! ## A stub environment -/

/-- The `float32` value 0.1, by its bit pattern. -/
def f0_1 : Float32 := ⟨0x3DCCCCCD⟩

/-- The `float32` value 0.2, by its bit pattern. -/
def f0_2 : Float32 := ⟨0x3E4CCCCD⟩

/-- The `float32` value 0.3, by its bit pattern. -/
def f0_3 : Float32 := ⟨0x3E99999A⟩

/-- A stub environment: every file is a readable JPEG, the model directory
`"model"` holds a model and a label file with the given content, and the model
answers every run with the given list of tensors. -/
def stubEnv (labelFile : Except Error File) (answer : Except Error (List Tensor)) : Env :=
  { MimeType := fun _ => "image/jpeg"
    ReadFile := fun _ => .ok ['j', 'p', 'g']
    Open := fun name => if name = "model/labels.txt" then labelFile else .error "no such file"
    LoadSavedModel := fun dir _ => if dir = "model" then .ok ⟨1⟩ else .error "no such model"
    ModelRun := fun _ _ _ _ => answer
    NewTensor := fun s => .ok ⟨.stringScalar s⟩
    Finalize := fun _ => none
    NewSession := fun _ => none
    SessionRun := fun _ _ _ _ => .ok [⟨.other 0⟩] }

/-- The label file of the stub model directory. -/
def stubLabels : File :=
  { data := "drawing\nhentai\nneutral\nporn\nsexy\n".toList, readErr := none }

/-- The answer of the stub backend with the known vector. -/
def stubAnswer : List Tensor :=
  [⟨.float32Matrix [[f0_1, f0_2, f0_3, f0_2, f0_2]]⟩]

/-! ## Repeated loading -/

/-- The number of `tf.LoadSavedModel` calls in a trace. -/
def loadCount (tr : Trace) : Nat :=
  tr.countP fun c =>
    match c with
    | Call.LoadSavedModel _ _ => true
    | _ => false

/-- Calling `loadModel` the given number of times in a row: the errors returned
by the calls in order, the detector and the trace at the end. -/
def loadModelTimes (env : Env) : Nat → Detector → Trace → List (Option Error) × Detector × Trace
  | 0, t, tr => ([], t, tr)
  | n + 1, t, tr =>
    match t.loadModel env tr with
    | (err, t1, tr1) =>
      match loadModelTimes env n t1 tr1 with
      | (errs, t2, tr2) => (err :: errs, t2, tr2)

/-! ## Lines of a text file -/

/-- Removes the last piece when it is empty: the text after the final newline
of a file is not a line when there is none. -/
def dropEmptyLast (pieces : List (List Char)) : List (List Char) :=
  if pieces.getLast? = some [] then pieces.dropLast else pieces

/-- The lines of a text: the pieces between newlines, a final newline not
starting another line. Blank lines are lines. -/
def fileLines (data : List Char) : List (List Char) :=
  dropEmptyLast (data.splitOn '\n')

/-- The label list as the specification words it: one label per non-blank
line, in file order, blank lines ignored. -/
def nonBlankLabels (data : List Char) : List String :=
  ((fileLines data).map lineText).filter fun label => label ≠ ""

/-! ## Shapes in the transformation graph -/

/-- A tensor shape, outermost dimension first. -/
abbrev Shape := List Nat

/-- The size of the image that the decoder finds in the input bytes. -/
structure ImageSize where
  height : Nat
  width : Nat
  channels : Nat
deriving DecidableEq, Repr

/-- Broadcasting of two shapes given innermost dimension first: equal
dimensions stay, a dimension 1 stretches, the longer shape supplies the rest. -/
def broadcastRev : List Nat → List Nat → Option (List Nat)
  | [], ys => some ys
  | x :: xs, [] => some (x :: xs)
  | x :: xs, y :: ys =>
    match broadcastRev xs ys with
    | none => none
    | some zs =>
      if x = y then some (x :: zs)
      else if x = 1 then some (y :: zs)
      else if y = 1 then some (x :: zs)
      else none

/-- The shape of an elementwise binary operation on two shapes. -/
def broadcast (a b : Shape) : Option Shape :=
  (broadcastRev a.reverse b.reverse).map List.reverse

/-- The value of an `int32` constant, as the list of its elements. -/
def Output.constInt32s : Output → Option (List Int)
  | .ConstInt32 _ v => some [v]
  | .ConstInt32s _ v => some v
  | _ => none

/-- Inserts a dimension of size 1 at the given axis, negative axes counting
from the end, as `ExpandDims` does. -/
def expandDims (s : Shape) (axis : Int) : Option Shape :=
  if 0 ≤ axis ∧ axis ≤ s.length then
    some (s.take axis.toNat ++ 1 :: s.drop axis.toNat)
  else if -(s.length + 1 : Int) ≤ axis ∧ axis < 0 then
    some (s.take (axis + s.length + 1).toNat ++ 1 :: s.drop (axis + s.length + 1).toNat)
  else none

/-- The shape of the tensor that an output of the transformation graph holds
when the graph runs on an image of the given size, following the shape rules of
the TensorFlow operations: the placeholder is fed a scalar string; a decoder
needs a scalar and yields height, width and the requested number of channels
(those of the image when 0 is requested); `Cast` keeps the shape; `ExpandDims`
inserts a dimension 1 at a constant axis; `ResizeBilinear` needs a non-empty
batch of images and a constant pair of positive sizes and replaces height and
width; `Sub` and `Div` broadcast. `none` when the operation rejects its
inputs. -/
def Output.shape (image : ImageSize) : Output → Option Shape
  | .Placeholder _ => some []
  | .ConstInt32 _ _ => some []
  | .ConstInt32s _ v => some [v.length]
  | .ConstFloat _ _ => some []
  | .DecodePng contents channels =>
    match contents.shape image with
    | some [] =>
      some [image.height, image.width, if channels = 0 then image.channels else channels]
    | _ => none
  | .DecodeJpeg contents channels =>
    match contents.shape image with
    | some [] =>
      some [image.height, image.width, if channels = 0 then image.channels else channels]
    | _ => none
  | .Cast x _ => x.shape image
  | .ExpandDims input dim =>
    match input.shape image, dim.constInt32s, dim.shape image with
    | some s, some [axis], some [] => expandDims s axis
    | _, _, _ => none
  | .ResizeBilinear images size =>
    match images.shape image, size.constInt32s with
    | some [batch, height, width, channels], some [newHeight, newWidth] =>
      if 0 < height ∧ 0 < width ∧ 0 < newHeight ∧ 0 < newWidth then
        some [batch, newHeight.toNat, newWidth.toNat, channels]
      else none
    | _, _ => none
  | .Sub x y =>
    match x.shape image, y.shape image with
    | some a, some b => broadcast a b
    | _, _ => none
  | .Div x y =>
    match x.shape image, y.shape image with
    | some a, some b => broadcast a b
    | _, _ => none

/-! ## Two goroutines in `loadModel` -/

/-- The program points of a goroutine that runs `loadModel`: before the test
`t.model != nil`, before the call `tf.LoadSavedModel`, before the assignment
`t.model = model` (holding the loaded model), before the call `t.loadLabels`,
and after the return (holding the returned error). -/
inductive Pc where
  | check
  | load
  | assign (model : SavedModel)
  | labels
  | returned (err : Option Error)
deriving DecidableEq, Repr

/-- One statement of `loadModel`, executed at the given program point on the
shared detector: the next program point, the detector and the trace. A
goroutine that has returned does nothing. -/
def Pc.step (env : Env) (pc : Pc) (t : Detector) (tr : Trace) : Pc × Detector × Trace :=
  match pc with
  | .check =>
    match t.model with
    | some _ => (.returned none, t, tr)
    | none => (.load, t, tr)
  | .load =>
    match env.LoadSavedModel t.modelPath t.modelTags with
    | .error err => (.returned (some err), t, tr ++ [Call.LoadSavedModel t.modelPath t.modelTags])
    | .ok model => (.assign model, t, tr ++ [Call.LoadSavedModel t.modelPath t.modelTags])
  | .assign model => (.labels, { t with model := some model }, tr)
  | .labels =>
    match t.loadLabels env t.modelPath tr with
    | (err, t1, tr1) => (.returned err, t1, tr1)
  | .returned err => (.returned err, t, tr)

/-- The two goroutines. -/
inductive Goroutine where
  | first
  | second
deriving DecidableEq, Repr

/-- Two goroutines in `loadModel` on one detector: their program points, the
shared detector and the calls made so far. -/
structure Shared where
  first : Pc
  second : Pc
  t : Detector
  tr : Trace
deriving DecidableEq, Repr

/-- Both goroutines enter `loadModel`. -/
def Shared.start (t : Detector) (tr : Trace) : Shared :=
  { first := Pc.check, second := Pc.check, t := t, tr := tr }

/-- The chosen goroutine executes its next statement. -/
def Shared.step (env : Env) (g : Goroutine) (s : Shared) : Shared :=
  match g with
  | .first =>
    match s.first.step env s.t s.tr with
    | (pc, t, tr) => { s with first := pc, t := t, tr := tr }
  | .second =>
    match s.second.step env s.t s.tr with
    | (pc, t, tr) => { s with second := pc, t := t, tr := tr }

/-- The goroutines execute statements in the order of the schedule. -/
def runSchedule (env : Env) : List Goroutine → Shared → Shared
  | [], s => s
  | g :: gs, s => runSchedule env gs (s.step env g)

/-! ## Lemmas on indexing and on the stages of `Labels` -/

theorem index_ok {α : Type} (xs : List α) (i : Nat) (h : i < xs.length) :
    index xs i = .ok xs[i] := by
  simp [index, List.getElem?_eq_getElem h]

theorem index_error {α : Type} (xs : List α) (i : Nat) (h : xs.length ≤ i) :
    index xs i = .error (Fault.indexOutOfRange i xs.length) := by
  simp [index, List.getElem?_eq_none h]

theorem getLabels_ok (t : Detector) (p : List Float32) (h : 5 ≤ p.length) :
    t.getLabels p =
      .ok { Drawing := p[0], Hentai := p[1], Neutral := p[2], Porn := p[3], Sexy := p[4] } := by
  simp only [Detector.getLabels, index_ok p 0 (by omega), index_ok p 1 (by omega),
    index_ok p 2 (by omega), index_ok p 3 (by omega), index_ok p 4 (by omega)]
  rfl

theorem getLabels_fault (t : Detector) (p : List Float32) (h : p.length < 5) :
    t.getLabels p = .error (Fault.indexOutOfRange p.length p.length) := by
  match p, h with
  | [], _ => rfl
  | [_], _ => rfl
  | [_, _], _ => rfl
  | [_, _, _], _ => rfl
  | [_, _, _, _], _ => rfl
  | _ :: _ :: _ :: _ :: _ :: _, h => simp at h; omega

/-- What `Labels` does once the model is loaded, the image is a tensor and the
backend has answered with a non-empty output list. -/
theorem Labels_of_output (env : Env) (t t1 : Detector) (img : List Char) (tr tr1 tr2 : Trace)
    (m : SavedModel) (tensor output0 : Tensor) (outputs : List Tensor)
    (hload : t.loadModel env tr = (none, t1, tr1)) (hm : t1.model = some m)
    (hpre : makeTensorFromImage env img "jpeg" tr1 = .ok (.ok tensor, tr2))
    (hrun : env.ModelRun m "input_tensor" tensor "nsfw_cls_model/final_prediction"
      = .ok (output0 :: outputs)) :
    t.Labels env img tr =
      match assertFloat32Matrix output0.Value with
      | .error f => .error f
      | .ok rows =>
        match index rows 0 with
        | .error f => .error f
        | .ok p =>
          match t1.getLabels p with
          | .error f => .error f
          | .ok result => .ok ((result, none), t1, tr2 ++ [Call.ModelRun m]) := by
  simp [Detector.Labels, hload, hpre, hm, hrun, index]

/-- A detector whose model is set passes `loadModel` unchanged, without a call. -/
theorem loadModel_loaded (env : Env) (t : Detector) (tr : Trace) (m : SavedModel)
    (hm : t.model = some m) : t.loadModel env tr = (none, t, tr) := by
  simp [Detector.loadModel, hm]

/-! ## The positional mapping -/

/-- C1: for every output vector `p` with at least five entries, `getLabels p`
is the label vector with Drawing = p[0], Hentai = p[1], Neutral = p[2],
Porn = p[3], Sexy = p[4]; and a call of `Labels` in which the model loads, the
image becomes a tensor and the first row of the first output tensor is `p`
returns exactly this vector with a nil error. -/
theorem getLabels_positional (t : Detector) (p : List Float32) (h : 5 ≤ p.length) :
    t.getLabels p =
        .ok { Drawing := p[0], Hentai := p[1], Neutral := p[2], Porn := p[3], Sexy := p[4] }
    ∧ ∀ (env : Env) (img : List Char) (tr tr1 tr2 : Trace) (t1 : Detector) (m : SavedModel)
        (tensor : Tensor) (rows : List (List Float32)) (outputs : List Tensor),
        t.loadModel env tr = (none, t1, tr1) → t1.model = some m →
        makeTensorFromImage env img "jpeg" tr1 = .ok (.ok tensor, tr2) →
        env.ModelRun m "input_tensor" tensor "nsfw_cls_model/final_prediction"
          = .ok (⟨.float32Matrix (p :: rows)⟩ :: outputs) →
        t.Labels env img tr =
          .ok (({ Drawing := p[0], Hentai := p[1], Neutral := p[2], Porn := p[3],
                  Sexy := p[4] }, none), t1, tr2 ++ [Call.ModelRun m]) := by
  refine ⟨getLabels_ok t p h, ?_⟩
  intro env img tr tr1 tr2 t1 m tensor rows outputs hload hm hpre hrun
  rw [Labels_of_output env t t1 img tr tr1 tr2 m tensor _ outputs hload hm hpre hrun]
  simp [assertFloat32Matrix, index, getLabels_ok t1 p h]

/-- C1, at the known vector: the stub backend answering `[0.1, 0.2, 0.3, 0.2, 0.2]`
gives Drawing = 0.1, Hentai = 0.2, Neutral = 0.3, Porn = 0.2, Sexy = 0.2, from
`getLabels` and from `Labels` on a fresh detector. -/
theorem getLabels_positional_witness :
    (NewDetector "model").getLabels [f0_1, f0_2, f0_3, f0_2, f0_2] =
        .ok { Drawing := f0_1, Hentai := f0_2, Neutral := f0_3, Porn := f0_2, Sexy := f0_2 }
    ∧ (NewDetector "model").Labels (stubEnv (.ok stubLabels) (.ok stubAnswer)) ['x'] [] =
        .ok (({ Drawing := f0_1, Hentai := f0_2, Neutral := f0_3, Porn := f0_2, Sexy := f0_2 },
              none),
             { model := some ⟨1⟩, modelPath := "model", modelTags := ["serve"],
               labels := ["drawing", "hentai", "neutral", "porn", "sexy"] },
             [Call.LoadSavedModel "model" ["serve"], Call.Open "model/labels.txt",
              Call.NewSession, Call.SessionRun, Call.ModelRun ⟨1⟩]) :=
  ⟨(getLabels_positional (NewDetector "model") [f0_1, f0_2, f0_3, f0_2, f0_2] (by decide)).1,
   (getLabels_positional (NewDetector "model") [f0_1, f0_2, f0_3, f0_2, f0_2] (by decide)).2
     (stubEnv (.ok stubLabels) (.ok stubAnswer)) ['x'] []
     [Call.LoadSavedModel "model" ["serve"], Call.Open "model/labels.txt"]
     [Call.LoadSavedModel "model" ["serve"], Call.Open "model/labels.txt",
      Call.NewSession, Call.SessionRun]
     { model := some ⟨1⟩, modelPath := "model", modelTags := ["serve"],
       labels := ["drawing", "hentai", "neutral", "porn", "sexy"] }
     ⟨1⟩ ⟨.other 0⟩ [] [] rfl rfl rfl rfl⟩

/-! ## Inference errors -/

/-- C3: for a loaded detector and an image that preprocesses successfully, a
backend run that returns an error makes `Labels` return the error
"could not run inference", and a run that returns an empty output list makes it
return the error "result is empty"; in both cases `Labels` returns (with the
zero label vector) instead of faulting on `output[0]`. -/
theorem Labels_inference_error (env : Env) (t : Detector) (img : List Char) (tr tr2 : Trace)
    (m : SavedModel) (tensor : Tensor) (hm : t.model = some m)
    (hpre : makeTensorFromImage env img "jpeg" tr = .ok (.ok tensor, tr2)) :
    (∀ e, env.ModelRun m "input_tensor" tensor "nsfw_cls_model/final_prediction" = .error e →
      t.Labels env img tr =
        .ok ((Labels.zero, some "could not run inference"), t, tr2 ++ [Call.ModelRun m]))
    ∧ (env.ModelRun m "input_tensor" tensor "nsfw_cls_model/final_prediction" = .ok [] →
      t.Labels env img tr =
        .ok ((Labels.zero, some "result is empty"), t, tr2 ++ [Call.ModelRun m])) := by
  constructor
  · intro e hrun
    simp [Detector.Labels, loadModel_loaded env t tr m hm, hpre, hm, hrun]
  · intro hrun
    simp [Detector.Labels, loadModel_loaded env t tr m hm, hpre, hm, hrun]

/-- C3, on stub backends: one whose run fails and one that returns no output
tensor. -/
theorem Labels_inference_error_witness :
    Detector.Labels (stubEnv (.ok stubLabels) (.error "backend down"))
        { model := some ⟨1⟩, modelPath := "model", modelTags := ["serve"], labels := [] }
        ['x'] [] =
      .ok ((Labels.zero, some "could not run inference"),
           { model := some ⟨1⟩, modelPath := "model", modelTags := ["serve"], labels := [] },
           [Call.NewSession, Call.SessionRun, Call.ModelRun ⟨1⟩])
    ∧ Detector.Labels (stubEnv (.ok stubLabels) (.ok []))
        { model := some ⟨1⟩, modelPath := "model", modelTags := ["serve"], labels := [] }
        ['x'] [] =
      .ok ((Labels.zero, some "result is empty"),
           { model := some ⟨1⟩, modelPath := "model", modelTags := ["serve"], labels := [] },
           [Call.NewSession, Call.SessionRun, Call.ModelRun ⟨1⟩]) :=
  ⟨(Labels_inference_error (stubEnv (.ok stubLabels) (.error "backend down"))
      { model := some ⟨1⟩, modelPath := "model", modelTags := ["serve"], labels := [] }
      ['x'] [] [Call.NewSession, Call.SessionRun] ⟨1⟩ ⟨.other 0⟩ rfl rfl).1
      "backend down" rfl,
   (Labels_inference_error (stubEnv (.ok stubLabels) (.ok []))
      { model := some ⟨1⟩, modelPath := "model", modelTags := ["serve"], labels := [] }
      ['x'] [] [Call.NewSession, Call.SessionRun] ⟨1⟩ ⟨.other 0⟩ rfl rfl).2 rfl⟩

/-! ## Errors never come with scores -/

theorem Labels_error_zero (env : Env) (t t1 : Detector) (img : List Char) (tr tr1 : Trace)
    (r : Labels) (e : Error) (h : t.Labels env img tr = .ok ((r, some e), t1, tr1)) :
    r = Labels.zero := by
  simp only [Detector.Labels] at h
  repeat' split at h
  all_goals simp_all

/-- C5: whenever `Labels` or `LabelsFromFile` returns an error, the label
vector returned with it is the zero value (all five fields 0); and when the
model is loaded and `makeTensorFromImage` fails, whatever its error, `Labels`
returns the zero vector with the single error "invalid image". -/
theorem error_returns_zero (env : Env) (t : Detector) (tr : Trace) :
    (∀ (img : List Char) (r : Labels) (e : Error) (t1 : Detector) (tr1 : Trace),
      t.Labels env img tr = .ok ((r, some e), t1, tr1) → r = Labels.zero)
    ∧ (∀ (filename : String) (r : Labels) (e : Error) (t1 : Detector) (tr1 : Trace),
      t.LabelsFromFile env filename tr = .ok ((r, some e), t1, tr1) → r = Labels.zero)
    ∧ (∀ (img : List Char) (t1 : Detector) (tr1 tr2 : Trace) (e : Error),
      t.loadModel env tr = (none, t1, tr1) →
      makeTensorFromImage env img "jpeg" tr1 = .ok (.error e, tr2) →
      t.Labels env img tr = .ok ((Labels.zero, some "invalid image"), t1, tr2)) := by
  refine ⟨?_, ?_, ?_⟩
  · intro img r e t1 tr1 h
    exact Labels_error_zero env t t1 img tr tr1 r e h
  · intro filename r e t1 tr1 h
    simp only [Detector.LabelsFromFile] at h
    split at h
    · simp at h
      exact h.1.1.symm
    · split at h
      · simp at h
        exact h.1.1.symm
      · exact Labels_error_zero env t t1 _ _ tr1 r e h
  · intro img t1 tr1 tr2 e hload hpre
    simp [Detector.Labels, hload, hpre]

/-- C5, on stubs: a failing backend run through `Labels`, an unreadable file
through `LabelsFromFile` (each call shown with the zero vector that comes with
its error), and a transformation session that fails with its own message. -/
theorem error_returns_zero_witness :
    ((NewDetector "model").Labels (stubEnv (.ok stubLabels) (.error "backend down")) ['x'] [] =
        .ok ((Labels.zero, some "could not run inference"),
             { model := some ⟨1⟩, modelPath := "model", modelTags := ["serve"],
               labels := ["drawing", "hentai", "neutral", "porn", "sexy"] },
             [Call.LoadSavedModel "model" ["serve"], Call.Open "model/labels.txt",
              Call.NewSession, Call.SessionRun, Call.ModelRun ⟨1⟩])
      ∧ Labels.zero = { Drawing := ⟨0⟩, Hentai := ⟨0⟩, Neutral := ⟨0⟩, Porn := ⟨0⟩, Sexy := ⟨0⟩ })
    ∧ ((NewDetector "model").LabelsFromFile
        { stubEnv (.ok stubLabels) (.ok stubAnswer) with ReadFile := fun _ => .error "denied" }
        "a.jpg" [] =
        .ok ((Labels.zero, some "denied"), NewDetector "model",
             [Call.MimeType "a.jpg", Call.ReadFile "a.jpg"])
      ∧ Labels.zero = { Drawing := ⟨0⟩, Hentai := ⟨0⟩, Neutral := ⟨0⟩, Porn := ⟨0⟩, Sexy := ⟨0⟩ })
    ∧ (NewDetector "model").Labels
        { stubEnv (.ok stubLabels) (.ok stubAnswer) with
          SessionRun := fun _ _ _ _ => .error "Invalid JPEG data" } ['x'] [] =
      .ok ((Labels.zero, some "invalid image"),
           { model := some ⟨1⟩, modelPath := "model", modelTags := ["serve"],
             labels := ["drawing", "hentai", "neutral", "porn", "sexy"] },
           [Call.LoadSavedModel "model" ["serve"], Call.Open "model/labels.txt",
            Call.NewSession, Call.SessionRun]) :=
  ⟨⟨rfl, (error_returns_zero (stubEnv (.ok stubLabels) (.error "backend down"))
      (NewDetector "model") []).1 ['x'] Labels.zero "could not run inference"
      { model := some ⟨1⟩, modelPath := "model", modelTags := ["serve"],
        labels := ["drawing", "hentai", "neutral", "porn", "sexy"] }
      [Call.LoadSavedModel "model" ["serve"], Call.Open "model/labels.txt",
       Call.NewSession, Call.SessionRun, Call.ModelRun ⟨1⟩] rfl⟩,
   ⟨rfl, (error_returns_zero
      { stubEnv (.ok stubLabels) (.ok stubAnswer) with ReadFile := fun _ => .error "denied" }
      (NewDetector "model") []).2.1 "a.jpg" Labels.zero "denied" (NewDetector "model")
      [Call.MimeType "a.jpg", Call.ReadFile "a.jpg"] rfl⟩,
   (error_returns_zero
      { stubEnv (.ok stubLabels) (.ok stubAnswer) with
        SessionRun := fun _ _ _ _ => .error "Invalid JPEG data" }
      (NewDetector "model") []).2.2 ['x']
      { model := some ⟨1⟩, modelPath := "model", modelTags := ["serve"],
        labels := ["drawing", "hentai", "neutral", "porn", "sexy"] }
      [Call.LoadSavedModel "model" ["serve"], Call.Open "model/labels.txt"]
      [Call.LoadSavedModel "model" ["serve"], Call.Open "model/labels.txt",
       Call.NewSession, Call.SessionRun]
      "Invalid JPEG data" rfl rfl⟩

/-! ## The file entry point -/

/-- C6: for a filename whose media type is not image/jpeg, `LabelsFromFile`
returns the not-a-jpeg error with the detector unchanged and `util.MimeType` as
its only call (no file read, no model load, no backend run); for a JPEG-typed
file that cannot be read it returns the read error, again with the detector
unchanged; otherwise it is `Labels` applied to the bytes read. -/
theorem LabelsFromFile_cases (env : Env) (t : Detector) (filename : String) (tr : Trace) :
    (env.MimeType filename ≠ "image/jpeg" →
      t.LabelsFromFile env filename tr =
        .ok ((Labels.zero, some ("nsfw: \"" ++ filename ++ "\" is not a jpeg file")), t,
             tr ++ [Call.MimeType filename]))
    ∧ (∀ err, env.MimeType filename = "image/jpeg" → env.ReadFile filename = .error err →
      t.LabelsFromFile env filename tr =
        .ok ((Labels.zero, some err), t, tr ++ [Call.MimeType filename, Call.ReadFile filename]))
    ∧ (∀ imageBuffer, env.MimeType filename = "image/jpeg" →
      env.ReadFile filename = .ok imageBuffer →
      t.LabelsFromFile env filename tr =
        t.Labels env imageBuffer (tr ++ [Call.MimeType filename, Call.ReadFile filename])) := by
  refine ⟨?_, ?_, ?_⟩
  · intro h
    simp [Detector.LabelsFromFile, h]
  · intro err hmime hread
    simp [Detector.LabelsFromFile, hmime, hread]
  · intro imageBuffer hmime hread
    simp [Detector.LabelsFromFile, hmime, hread]

/-- C6, on stubs: a PNG-typed file, an unreadable JPEG-typed file and a
readable one, each on a fresh detector. -/
theorem LabelsFromFile_cases_witness :
    (NewDetector "model").LabelsFromFile
        { stubEnv (.ok stubLabels) (.ok stubAnswer) with MimeType := fun _ => "image/png" }
        "a.png" [] =
      .ok ((Labels.zero, some "nsfw: \"a.png\" is not a jpeg file"), NewDetector "model",
           [Call.MimeType "a.png"])
    ∧ (NewDetector "model").LabelsFromFile
        { stubEnv (.ok stubLabels) (.ok stubAnswer) with ReadFile := fun _ => .error "denied" }
        "a.jpg" [] =
      .ok ((Labels.zero, some "denied"), NewDetector "model",
           [Call.MimeType "a.jpg", Call.ReadFile "a.jpg"])
    ∧ (NewDetector "model").LabelsFromFile (stubEnv (.ok stubLabels) (.ok stubAnswer))
        "a.jpg" [] =
      (NewDetector "model").Labels (stubEnv (.ok stubLabels) (.ok stubAnswer))
        ['j', 'p', 'g'] [Call.MimeType "a.jpg", Call.ReadFile "a.jpg"] :=
  ⟨(LabelsFromFile_cases
      { stubEnv (.ok stubLabels) (.ok stubAnswer) with MimeType := fun _ => "image/png" }
      (NewDetector "model") "a.png" []).1 (by decide),
   (LabelsFromFile_cases
      { stubEnv (.ok stubLabels) (.ok stubAnswer) with ReadFile := fun _ => .error "denied" }
      (NewDetector "model") "a.jpg" []).2.1 "denied" rfl rfl,
   (LabelsFromFile_cases (stubEnv (.ok stubLabels) (.ok stubAnswer))
      (NewDetector "model") "a.jpg" []).2.2 ['j', 'p', 'g'] rfl rfl⟩

/-! ## Totality of the mapping step -/

/-- C10: once the model is loaded, the image is a tensor and the backend has
answered with a non-empty output list whose first tensor is a `[][]float32`:
if its first row `p` has at least five entries, `Labels` returns the vector of
`p[0..4]` with a nil error, and `getLabels` gives the same vector for any
detector (whatever its label names) and any row that agrees with `p` on the
first five entries; if `p` has fewer than five entries, `Labels` faults with an
index out of range at index `p.length`; if the tensor has no row, it faults
with an index out of range at index 0. -/
theorem Labels_mapping_total (env : Env) (t t1 : Detector) (img : List Char)
    (tr tr1 tr2 : Trace) (m : SavedModel) (tensor output0 : Tensor) (outputs : List Tensor)
    (hload : t.loadModel env tr = (none, t1, tr1)) (hm : t1.model = some m)
    (hpre : makeTensorFromImage env img "jpeg" tr1 = .ok (.ok tensor, tr2))
    (hrun : env.ModelRun m "input_tensor" tensor "nsfw_cls_model/final_prediction"
      = .ok (output0 :: outputs)) :
    (∀ (p : List Float32) (rows : List (List Float32)) (h : 5 ≤ p.length),
      output0.Value = .float32Matrix (p :: rows) →
      t.Labels env img tr =
          .ok (({ Drawing := p[0], Hentai := p[1], Neutral := p[2], Porn := p[3],
                  Sexy := p[4] }, none), t1, tr2 ++ [Call.ModelRun m])
      ∧ ∀ (t2 : Detector) (q : List Float32), q.take 5 = p.take 5 →
          t2.getLabels q =
            .ok { Drawing := p[0], Hentai := p[1], Neutral := p[2], Porn := p[3],
                  Sexy := p[4] })
    ∧ (∀ (p : List Float32) (rows : List (List Float32)), p.length < 5 →
      output0.Value = .float32Matrix (p :: rows) →
      t.Labels env img tr = .error (Fault.indexOutOfRange p.length p.length))
    ∧ (output0.Value = .float32Matrix [] →
      t.Labels env img tr = .error (Fault.indexOutOfRange 0 0)) := by
  have key := Labels_of_output env t t1 img tr tr1 tr2 m tensor output0 outputs hload hm hpre hrun
  refine ⟨?_, ?_, ?_⟩
  · intro p rows h hval
    constructor
    · rw [key, hval]
      simp [assertFloat32Matrix, index, getLabels_ok t1 p h]
    · intro t2 q hq
      have hlen : 5 ≤ q.length := by
        have h5 := congrArg List.length hq
        simp only [List.length_take] at h5
        omega
      rw [getLabels_ok t2 q hlen]
      have e0 : q[0] = p[0] := by
        have := congrArg (fun l => l[0]?) hq
        simpa [List.getElem?_take, List.getElem?_eq_getElem, h, hlen] using this
      have e1 : q[1] = p[1] := by
        have := congrArg (fun l => l[1]?) hq
        simpa [List.getElem?_take, List.getElem?_eq_getElem, h, hlen] using this
      have e2 : q[2] = p[2] := by
        have := congrArg (fun l => l[2]?) hq
        simpa [List.getElem?_take, List.getElem?_eq_getElem, h, hlen] using this
      have e3 : q[3] = p[3] := by
        have := congrArg (fun l => l[3]?) hq
        simpa [List.getElem?_take, List.getElem?_eq_getElem, h, hlen] using this
      have e4 : q[4] = p[4] := by
        have := congrArg (fun l => l[4]?) hq
        simpa [List.getElem?_take, List.getElem?_eq_getElem, h, hlen] using this
      rw [e0, e1, e2, e3, e4]
  · intro p rows h hval
    rw [key, hval]
    simp [assertFloat32Matrix, index, getLabels_fault t1 p h]
  · intro hval
    rw [key, hval]
    simp [assertFloat32Matrix, index]

/-- C10, on stubs: a first row of six entries beside a second row and a second
output tensor, a first row of two entries, and a first tensor without rows. -/
theorem Labels_mapping_total_witness :
    ((NewDetector "model").Labels
        (stubEnv (.ok stubLabels)
          (.ok [⟨.float32Matrix [[f0_1, f0_2, f0_3, f0_2, f0_2, f0_1], [f0_3]]⟩, ⟨.other 7⟩]))
        ['x'] [] =
      .ok (({ Drawing := f0_1, Hentai := f0_2, Neutral := f0_3, Porn := f0_2, Sexy := f0_2 },
            none),
           { model := some ⟨1⟩, modelPath := "model", modelTags := ["serve"],
             labels := ["drawing", "hentai", "neutral", "porn", "sexy"] },
           [Call.LoadSavedModel "model" ["serve"], Call.Open "model/labels.txt",
            Call.NewSession, Call.SessionRun, Call.ModelRun ⟨1⟩])
      ∧ (NewDetector "other").getLabels [f0_1, f0_2, f0_3, f0_2, f0_2] =
          .ok { Drawing := f0_1, Hentai := f0_2, Neutral := f0_3, Porn := f0_2, Sexy := f0_2 })
    ∧ (NewDetector "model").Labels
        (stubEnv (.ok stubLabels) (.ok [⟨.float32Matrix [[f0_1, f0_2]]⟩])) ['x'] [] =
      .error (Fault.indexOutOfRange 2 2)
    ∧ (NewDetector "model").Labels
        (stubEnv (.ok stubLabels) (.ok [⟨.float32Matrix []⟩])) ['x'] [] =
      .error (Fault.indexOutOfRange 0 0) :=
  ⟨by
    have h := (Labels_mapping_total
      (stubEnv (.ok stubLabels)
        (.ok [⟨.float32Matrix [[f0_1, f0_2, f0_3, f0_2, f0_2, f0_1], [f0_3]]⟩, ⟨.other 7⟩]))
      (NewDetector "model")
      { model := some ⟨1⟩, modelPath := "model", modelTags := ["serve"],
        labels := ["drawing", "hentai", "neutral", "porn", "sexy"] }
      ['x'] [] [Call.LoadSavedModel "model" ["serve"], Call.Open "model/labels.txt"]
      [Call.LoadSavedModel "model" ["serve"], Call.Open "model/labels.txt",
       Call.NewSession, Call.SessionRun]
      ⟨1⟩ ⟨.other 0⟩ _ [⟨.other 7⟩] rfl rfl rfl rfl).1
      [f0_1, f0_2, f0_3, f0_2, f0_2, f0_1] [[f0_3]] (by decide) rfl
    exact ⟨h.1, h.2 (NewDetector "other") [f0_1, f0_2, f0_3, f0_2, f0_2] rfl⟩,
   (Labels_mapping_total
      (stubEnv (.ok stubLabels) (.ok [⟨.float32Matrix [[f0_1, f0_2]]⟩]))
      (NewDetector "model")
      { model := some ⟨1⟩, modelPath := "model", modelTags := ["serve"],
        labels := ["drawing", "hentai", "neutral", "porn", "sexy"] }
      ['x'] [] [Call.LoadSavedModel "model" ["serve"], Call.Open "model/labels.txt"]
      [Call.LoadSavedModel "model" ["serve"], Call.Open "model/labels.txt",
       Call.NewSession, Call.SessionRun]
      ⟨1⟩ ⟨.other 0⟩ _ [] rfl rfl rfl rfl).2.1 [f0_1, f0_2] [] (by decide) rfl,
   (Labels_mapping_total
      (stubEnv (.ok stubLabels) (.ok [⟨.float32Matrix []⟩]))
      (NewDetector "model")
      { model := some ⟨1⟩, modelPath := "model", modelTags := ["serve"],
        labels := ["drawing", "hentai", "neutral", "porn", "sexy"] }
      ['x'] [] [Call.LoadSavedModel "model" ["serve"], Call.Open "model/labels.txt"]
      [Call.LoadSavedModel "model" ["serve"], Call.Open "model/labels.txt",
       Call.NewSession, Call.SessionRun]
      ⟨1⟩ ⟨.other 0⟩ _ [] rfl rfl rfl rfl).2.2 rfl⟩

/-! ## The shape of the transformed image -/

/-- C8: for either image format and every decoded image of height and width at
least 1 (any number of channels), the output of the transformation graph
(decode with 3 channels, cast, expand at axis 0, bilinear resize to 224 x 224,
subtract the mean, divide by the scale) has shape (1, 224, 224, 3); and a tensor
returned by `makeTensorFromImage` is the first tensor that the session run
returns for this output of this graph. -/
theorem transform_shape_stable (env : Env) (imageFormat : String) (image : ImageSize)
    (hh : 1 ≤ image.height) (hw : 1 ≤ image.width) :
    (makeTransformImageGraph env imageFormat).2.2.1.shape image = some [1, 224, 224, 3]
    ∧ ∀ (bytes : List Char) (tr tr1 : Trace) (tensor : Tensor),
        makeTensorFromImage env bytes imageFormat tr = .ok (.ok tensor, tr1) →
        ∃ fed rest,
          env.SessionRun (makeTransformImageGraph env imageFormat).1
            (makeTransformImageGraph env imageFormat).2.1 fed
            (makeTransformImageGraph env imageFormat).2.2.1 = .ok (tensor :: rest) := by
  constructor
  · have h1 : 0 < image.height := hh
    have h2 : 0 < image.width := hw
    by_cases hf : imageFormat = "png"
    · simp [makeTransformImageGraph, hf, Output.shape, Output.constInt32s, expandDims,
        broadcast, broadcastRev, h1, h2]
    · simp [makeTransformImageGraph, hf, Output.shape, Output.constInt32s, expandDims,
        broadcast, broadcastRev, h1, h2]
  · intro bytes tr tr1 tensor h
    simp only [makeTensorFromImage] at h
    split at h
    · simp at h
    · rename_i fed _
      split at h
      · simp at h
      · rename_i graph input output hg
        split at h
        · simp at h
        · split at h
          · simp at h
          · rename_i normalized hrun
            have e1 : (makeTransformImageGraph env imageFormat).1 = graph := by rw [hg]
            have e2 : (makeTransformImageGraph env imageFormat).2.1 = input := by rw [hg]
            have e3 : (makeTransformImageGraph env imageFormat).2.2.1 = output := by rw [hg]
            rw [e1, e2, e3]
            cases normalized with
            | nil => simp [index] at h
            | cons a rest =>
              simp [index] at h
              exact ⟨fed, rest, by rw [hrun, h.1]⟩

/-- C8, at a 1 x 1 image and at a 4000 x 3000 image. -/
theorem transform_shape_stable_witness :
    (makeTransformImageGraph (stubEnv (.ok stubLabels) (.ok stubAnswer)) "jpeg").2.2.1.shape
        ⟨1, 1, 3⟩ = some [1, 224, 224, 3]
    ∧ (makeTransformImageGraph (stubEnv (.ok stubLabels) (.ok stubAnswer)) "jpeg").2.2.1.shape
        ⟨3000, 4000, 3⟩ = some [1, 224, 224, 3] :=
  ⟨(transform_shape_stable (stubEnv (.ok stubLabels) (.ok stubAnswer)) "jpeg" ⟨1, 1, 3⟩
      (by decide) (by decide)).1,
   (transform_shape_stable (stubEnv (.ok stubLabels) (.ok stubAnswer)) "jpeg" ⟨3000, 4000, 3⟩
      (by decide) (by decide)).1⟩

/-! ## Loading the model -/

theorem loadCount_append (tr tr1 : Trace) : loadCount (tr ++ tr1) = loadCount tr + loadCount tr1 := by
  simp [loadCount, List.countP_append]

/-- The first `loadModel` of an unloaded detector with a valid model path. -/
theorem loadModel_valid (env : Env) (t : Detector) (tr : Trace) (m : SavedModel) (f : File)
    (labels : List String) (hnil : t.model = none)
    (hmodel : env.LoadSavedModel t.modelPath t.modelTags = .ok m)
    (hopen : env.Open (t.modelPath ++ "/labels.txt") = .ok f)
    (hscan : scanLabels f.readErr t.labels [] f.data = (labels, none)) :
    t.loadModel env tr =
      (none, { t with model := some m, labels := labels },
       tr ++ [Call.LoadSavedModel t.modelPath t.modelTags,
              Call.Open (t.modelPath ++ "/labels.txt")]) := by
  simp [Detector.loadModel, Detector.loadLabels, hnil, hmodel, hopen, hscan]

theorem loadModelTimes_loaded (env : Env) (n : Nat) (t : Detector) (tr : Trace) (m : SavedModel)
    (hm : t.model = some m) :
    loadModelTimes env n t tr = (List.replicate n none, t, tr) := by
  induction n with
  | zero => rfl
  | succ k ih => simp [loadModelTimes, loadModel_loaded env t tr m hm, ih, List.replicate_succ]

/-- C4: for a detector whose model path is valid (the model artifact loads, the
label file opens and scans without error), calling `loadModel` n >= 1 times in
a row returns no error on any call and ends in the state reached by the first
call, so no later call replaces the model handle or changes the label list;
starting from an unloaded detector the calls invoke `tf.LoadSavedModel` exactly
once, and starting from a loaded one they invoke nothing at all. -/
theorem loadModel_idempotent (env : Env) (t : Detector) (tr : Trace) (m : SavedModel)
    (f : File) (labels : List String)
    (hmodel : env.LoadSavedModel t.modelPath t.modelTags = .ok m)
    (hopen : env.Open (t.modelPath ++ "/labels.txt") = .ok f)
    (hscan : scanLabels f.readErr t.labels [] f.data = (labels, none))
    (n : Nat) (hn : 1 ≤ n) :
    loadModelTimes env n t tr =
        (List.replicate n none, (t.loadModel env tr).2.1, (t.loadModel env tr).2.2)
    ∧ (t.model = none →
        (t.loadModel env tr).2.1 = { t with model := some m, labels := labels }
        ∧ (loadModelTimes env n t tr).2.2 =
            tr ++ [Call.LoadSavedModel t.modelPath t.modelTags,
                   Call.Open (t.modelPath ++ "/labels.txt")]
        ∧ loadCount (loadModelTimes env n t tr).2.2 = loadCount tr + 1)
    ∧ (t.model ≠ none → (loadModelTimes env n t tr).2 = (t, tr)) := by
  obtain ⟨k, rfl⟩ : ∃ k, n = k + 1 := ⟨n - 1, by omega⟩
  cases hnil : t.model with
  | none =>
    have h1 := loadModel_valid env t tr m f labels hnil hmodel hopen hscan
    have h2 := loadModelTimes_loaded env k { t with model := some m, labels := labels }
      (tr ++ [Call.LoadSavedModel t.modelPath t.modelTags,
              Call.Open (t.modelPath ++ "/labels.txt")]) m rfl
    have h3 : loadModelTimes env (k + 1) t tr =
        (List.replicate (k + 1) none, { t with model := some m, labels := labels },
         tr ++ [Call.LoadSavedModel t.modelPath t.modelTags,
                Call.Open (t.modelPath ++ "/labels.txt")]) := by
      simp [loadModelTimes, h1, h2, List.replicate_succ]
    refine ⟨?_, ?_, ?_⟩
    · rw [h3, h1]
    · intro _
      refine ⟨by rw [h1], by rw [h3], ?_⟩
      rw [h3, loadCount_append]
      simp [loadCount]
    · intro h
      exact absurd rfl h
  | some m0 =>
    have h3 := loadModelTimes_loaded env (k + 1) t tr m0 hnil
    refine ⟨?_, ?_, ?_⟩
    · rw [h3, loadModel_loaded env t tr m0 hnil]
    · intro h
      cases h
    · intro _
      rw [h3]

/-- C4, on the stub model directory: three calls on a fresh detector. -/
theorem loadModel_idempotent_witness :
    loadModelTimes (stubEnv (.ok stubLabels) (.ok stubAnswer)) 3 (NewDetector "model") [] =
        ([none, none, none],
         ((NewDetector "model").loadModel (stubEnv (.ok stubLabels) (.ok stubAnswer)) []).2.1,
         ((NewDetector "model").loadModel (stubEnv (.ok stubLabels) (.ok stubAnswer)) []).2.2)
    ∧ ((NewDetector "model").loadModel (stubEnv (.ok stubLabels) (.ok stubAnswer)) []).2.1 =
        { model := some ⟨1⟩, modelPath := "model", modelTags := ["serve"],
          labels := ["drawing", "hentai", "neutral", "porn", "sexy"] }
    ∧ (loadModelTimes (stubEnv (.ok stubLabels) (.ok stubAnswer)) 3
        (NewDetector "model") []).2.2 =
        [Call.LoadSavedModel "model" ["serve"], Call.Open "model/labels.txt"]
    ∧ loadCount (loadModelTimes (stubEnv (.ok stubLabels) (.ok stubAnswer)) 3
        (NewDetector "model") []).2.2 = 0 + 1 :=
  have h := loadModel_idempotent (stubEnv (.ok stubLabels) (.ok stubAnswer))
    (NewDetector "model") [] ⟨1⟩ stubLabels ["drawing", "hentai", "neutral", "porn", "sexy"]
    rfl rfl rfl 3 (by decide)
  ⟨h.1, (h.2.1 rfl).1, (h.2.1 rfl).2.1, (h.2.1 rfl).2.2⟩

/-- C2, the failing inputs. With a model directory whose model loads and whose
label file cannot be opened, `loadModel` on a fresh detector returns the error
and leaves the model handle set; the next `loadModel` then returns no error
without calling `tf.LoadSavedModel` or opening the label file again. With a
label file whose read fails after "drawing\nhen", the error is returned while
the model handle is set and the labels read so far are kept. On the sibling
path, a model directory whose model does not load, the detector is left as it
was. -/
theorem loadModel_label_failure_keeps_model :
    (NewDetector "model").loadModel (stubEnv (.error "no such file") (.ok stubAnswer)) [] =
        (some "no such file",
         { model := some ⟨1⟩, modelPath := "model", modelTags := ["serve"], labels := [] },
         [Call.LoadSavedModel "model" ["serve"], Call.Open "model/labels.txt"])
    ∧ Detector.loadModel (stubEnv (.error "no such file") (.ok stubAnswer))
        { model := some ⟨1⟩, modelPath := "model", modelTags := ["serve"], labels := [] }
        [Call.LoadSavedModel "model" ["serve"], Call.Open "model/labels.txt"] =
        (none,
         { model := some ⟨1⟩, modelPath := "model", modelTags := ["serve"], labels := [] },
         [Call.LoadSavedModel "model" ["serve"], Call.Open "model/labels.txt"])
    ∧ (NewDetector "model").loadModel
        (stubEnv (.ok { data := "drawing\nhen".toList, readErr := some "input/output error" })
          (.ok stubAnswer)) [] =
        (some "input/output error",
         { model := some ⟨1⟩, modelPath := "model", modelTags := ["serve"],
           labels := ["drawing", "hen"] },
         [Call.LoadSavedModel "model" ["serve"], Call.Open "model/labels.txt"])
    ∧ (NewDetector "elsewhere").loadModel (stubEnv (.ok stubLabels) (.ok stubAnswer)) [] =
        (some "no such model", NewDetector "elsewhere",
         [Call.LoadSavedModel "elsewhere" ["serve"]]) :=
  ⟨rfl, rfl, rfl, rfl⟩

/-! ## The label file -/

theorem dropEmptyLast_cons (line : List Char) (pieces : List (List Char)) (h : pieces ≠ []) :
    dropEmptyLast (line :: pieces) = line :: dropEmptyLast pieces := by
  cases pieces with
  | nil => exact absurd rfl h
  | cons a as =>
    simp only [dropEmptyLast, List.getLast?_cons_cons, List.dropLast]
    split <;> rfl

theorem splitOn_newline_single (line : List Char) (h : ∀ c ∈ line, c ≠ '\n') :
    line.splitOn '\n' = [line] := by
  unfold List.splitOn
  apply List.splitOnP_eq_single
  intro c hc
  simpa using h c hc

theorem splitOn_newline_first (line rest : List Char) (h : ∀ c ∈ line, c ≠ '\n') :
    (line ++ '\n' :: rest).splitOn '\n' = line :: rest.splitOn '\n' := by
  unfold List.splitOn
  apply List.splitOnP_first
  · intro c hc
    simpa using h c hc
  · simp

/-- A scan that ends without error has appended the lines of the text made of
the current line and the unread bytes. -/
theorem scanLabels_ok (readErr : Option Error) (data : List Char) :
    ∀ (line : List Char) (labels out : List String), (∀ c ∈ line, c ≠ '\n') →
      scanLabels readErr labels line data = (out, none) →
      out = labels ++ (fileLines (line ++ data)).map lineText := by
  induction data with
  | nil =>
    intro line labels out hline h
    simp only [scanLabels] at h
    simp only [List.append_nil, fileLines, splitOn_newline_single line hline]
    by_cases hl : line = []
    · simp [hl] at h
      simp [hl, dropEmptyLast, h.1]
    · simp [hl] at h
      simp [dropEmptyLast, hl, h.1]
  | cons c rest ih =>
    intro line labels out hline h
    simp only [scanLabels] at h
    by_cases hc : c = '\n'
    · subst hc
      simp only [if_true] at h
      have := ih [] (labels ++ [lineText line]) out (by simp) h
      simp only [List.nil_append] at this
      simp only [fileLines] at this ⊢
      rw [splitOn_newline_first line rest hline,
        dropEmptyLast_cons line _ (by unfold List.splitOn; exact List.splitOnP_ne_nil _ _), this]
      simp
    · simp only [hc, if_false] at h
      split at h
      · simp at h
      · have hline1 : ∀ d ∈ line ++ [c], d ≠ '\n' := by
          intro d hd
          rcases List.mem_append.1 hd with hd | hd
          · exact hline d hd
          · simp at hd
            rw [hd]
            exact hc
        have := ih (line ++ [c]) labels out hline1 h
        simpa using this

theorem fileLines_no_newline (line : List Char) (h : ∀ c ∈ line, c ≠ '\n') :
    fileLines line = if line = [] then [] else [line] := by
  simp only [fileLines, splitOn_newline_single line h]
  by_cases hl : line = []
  · simp [hl, dropEmptyLast]
  · simp [hl, dropEmptyLast]

theorem fileLines_newline (line rest : List Char) (h : ∀ c ∈ line, c ≠ '\n') :
    fileLines (line ++ '\n' :: rest) = line :: fileLines rest := by
  simp only [fileLines]
  rw [splitOn_newline_first line rest h,
    dropEmptyLast_cons line _ (by unfold List.splitOn; exact List.splitOnP_ne_nil _ _)]

theorem no_newline_snoc (line : List Char) (c : Char) (h : ∀ d ∈ line, d ≠ '\n')
    (hc : c ≠ '\n') : ∀ d ∈ line ++ [c], d ≠ '\n' := by
  intro d hd
  rcases List.mem_append.1 hd with hd | hd
  · exact h d hd
  · simp at hd
    rw [hd]
    exact hc

/-- The line that starts with the bytes read so far is at least as long as
they are. -/
theorem fileLines_line_ge (data : List Char) :
    ∀ line : List Char, (∀ c ∈ line, c ≠ '\n') → line ≠ [] →
      ∃ l ∈ fileLines (line ++ data), line.length ≤ l.length := by
  induction data with
  | nil =>
    intro line hline hne
    rw [List.append_nil, fileLines_no_newline line hline]
    simp [hne]
  | cons c rest ih =>
    intro line hline hne
    by_cases hc : c = '\n'
    · subst hc
      rw [fileLines_newline line rest hline]
      exact ⟨line, by simp, le_refl _⟩
    · obtain ⟨l, hl, hlen⟩ := ih (line ++ [c]) (no_newline_snoc line c hline hc) (by simp)
      refine ⟨l, by simpa using hl, ?_⟩
      simp at hlen
      omega

/-- A scan ends without error exactly when the reads do not fail and every
line of the text made of the current line and the unread bytes is shorter than
the buffer limit. -/
theorem scanLabels_no_error_iff (readErr : Option Error) (data : List Char) :
    ∀ (line : List Char) (labels : List String), (∀ c ∈ line, c ≠ '\n') →
      line.length < MaxScanTokenSize →
      ((scanLabels readErr labels line data).2 = none ↔
        readErr = none ∧ ∀ l ∈ fileLines (line ++ data), l.length < MaxScanTokenSize) := by
  induction data with
  | nil =>
    intro line labels hline hlen
    rw [List.append_nil, fileLines_no_newline line hline]
    simp only [scanLabels]
    by_cases hl : line = []
    · simp [hl]
    · simp [hl, hlen]
  | cons c rest ih =>
    intro line labels hline hlen
    simp only [scanLabels]
    by_cases hc : c = '\n'
    · subst hc
      simp only [if_true]
      rw [ih [] (labels ++ [lineText line]) (by simp) (by simp [MaxScanTokenSize]),
        fileLines_newline line rest hline]
      simp [hlen]
    · simp only [hc, if_false]
      have happ : line ++ c :: rest = (line ++ [c]) ++ rest := by simp
      by_cases hlong : MaxScanTokenSize ≤ (line ++ [c]).length
      · simp only [hlong, if_true]
        constructor
        · intro h
          simp at h
        · intro h
          obtain ⟨l, hl, hge⟩ :=
            fileLines_line_ge rest (line ++ [c]) (no_newline_snoc line c hline hc) (by simp)
          rw [← happ] at hl
          have := h.2 l hl
          omega
      · simp only [hlong, if_false]
        rw [ih (line ++ [c]) labels (no_newline_snoc line c hline hc) (by omega), happ]

/-- C7, as amended: a label file is read without error by `loadLabels` exactly
when its reads do not fail and each of its lines is shorter than the scanner's
buffer limit of 65536 bytes; and whenever `loadLabels` returns no error, it has
appended to the label list exactly one label per line of the file, in file
order, blank lines included (as empty labels), while nothing else of the
detector changes. The label of a line is `lineText`: the line without its
newline and without one trailing carriage return, also on a last line that has
no newline; a final newline starts no further line. -/
theorem loadLabels_lines (env : Env) (t : Detector) (path : String) (tr : Trace) (f : File)
    (hopen : env.Open (path ++ "/labels.txt") = .ok f) :
    ((t.loadLabels env path tr).1 = none ↔
      f.readErr = none ∧ ∀ l ∈ fileLines f.data, l.length < MaxScanTokenSize)
    ∧ ((t.loadLabels env path tr).1 = none →
      (t.loadLabels env path tr).2.1 =
        { t with labels := t.labels ++ (fileLines f.data).map lineText }) := by
  constructor
  · simp only [Detector.loadLabels, hopen]
    have h := scanLabels_no_error_iff f.readErr f.data [] t.labels (by simp)
      (by simp [MaxScanTokenSize])
    simpa using h
  · intro h
    simp only [Detector.loadLabels, hopen] at h ⊢
    have hs := scanLabels_ok f.readErr f.data [] t.labels
      (scanLabels f.readErr t.labels [] f.data).1 (by simp)
      (by rw [← h])
    simp only [List.nil_append] at hs
    rw [← hs]

/-- C7 as amended, on a label file with Windows line ends, a blank line and a
last line that ends in a carriage return without a newline. -/
theorem loadLabels_lines_witness :
    ((NewDetector "model").loadLabels
        (stubEnv (.ok { data := "a\r\n\r\nb\r".toList, readErr := none }) (.ok stubAnswer))
        "model" []).1 = none
    ∧ ((NewDetector "model").loadLabels
        (stubEnv (.ok { data := "a\r\n\r\nb\r".toList, readErr := none }) (.ok stubAnswer))
        "model" []).2.1 =
      { model := none, modelPath := "model", modelTags := ["serve"], labels := ["a", "", "b"] } :=
  have h := loadLabels_lines
    (stubEnv (.ok { data := "a\r\n\r\nb\r".toList, readErr := none }) (.ok stubAnswer))
    (NewDetector "model") "model" [] { data := "a\r\n\r\nb\r".toList, readErr := none } rfl
  have hok := h.1.2 ⟨rfl, by decide⟩
  ⟨hok, (h.2 hok).trans rfl⟩

/-- C7, counterexample: for the readable label file "a\n\nb\n", `loadLabels`
returns no error and the label list `["a", "", "b"]`, which contains the empty
string and differs from the list `["a", "b"]` of the non-blank lines. -/
theorem loadLabels_keeps_blank_lines :
    ((NewDetector "model").loadLabels
        (stubEnv (.ok { data := "a\n\nb\n".toList, readErr := none }) (.ok stubAnswer))
        "model" []).1 = none
    ∧ ((NewDetector "model").loadLabels
        (stubEnv (.ok { data := "a\n\nb\n".toList, readErr := none }) (.ok stubAnswer))
        "model" []).2.1.labels = ["a", "", "b"]
    ∧ "" ∈ ((NewDetector "model").loadLabels
        (stubEnv (.ok { data := "a\n\nb\n".toList, readErr := none }) (.ok stubAnswer))
        "model" []).2.1.labels
    ∧ ((NewDetector "model").loadLabels
        (stubEnv (.ok { data := "a\n\nb\n".toList, readErr := none }) (.ok stubAnswer))
        "model" []).2.1.labels ≠ nonBlankLabels "a\n\nb\n".toList := by
  have h : ((NewDetector "model").loadLabels
      (stubEnv (.ok { data := "a\n\nb\n".toList, readErr := none }) (.ok stubAnswer))
      "model" []).2.1.labels = ["a", "", "b"] := rfl
  have hn : nonBlankLabels "a\n\nb\n".toList = ["a", "b"] := by decide
  refine ⟨rfl, h, ?_, ?_⟩
  · rw [h]
    decide
  · rw [h, hn]
    decide

/-! ## Concurrent first calls -/

theorem runSchedule_append (env : Env) (gs hs : List Goroutine) (s : Shared) :
    runSchedule env (gs ++ hs) s = runSchedule env hs (runSchedule env gs s) := by
  induction gs generalizing s with
  | nil => rfl
  | cons g gs ih => simp [runSchedule, ih]

theorem runSchedule_first_returned (env : Env) (k : Nat) (s : Shared) (e : Option Error)
    (h : s.first = Pc.returned e) :
    runSchedule env (List.replicate k Goroutine.first) s = s := by
  induction k with
  | zero => rfl
  | succ k ih =>
    have hs : s.step env Goroutine.first = s := by
      cases s
      simp only at h
      simp [Shared.step, h, Pc.step]
    simp [List.replicate_succ, runSchedule, hs, ih]

theorem runSchedule_second_returned (env : Env) (k : Nat) (s : Shared) (e : Option Error)
    (h : s.second = Pc.returned e) :
    runSchedule env (List.replicate k Goroutine.second) s = s := by
  induction k with
  | zero => rfl
  | succ k ih =>
    have hs : s.step env Goroutine.second = s := by
      cases s
      simp only at h
      simp [Shared.step, h, Pc.step]
    simp [List.replicate_succ, runSchedule, hs, ih]

/-- A goroutine that runs the four statements of `loadModel` without the other
one moving does what the method `loadModel` does. -/
theorem runSchedule_alone (env : Env) (t : Detector) (tr : Trace) :
    runSchedule env (List.replicate 4 Goroutine.first) (Shared.start t tr) =
      { first := Pc.returned (t.loadModel env tr).1, second := Pc.check,
        t := (t.loadModel env tr).2.1, tr := (t.loadModel env tr).2.2 } := by
  cases hm : t.model with
  | some m =>
    simp [List.replicate, runSchedule, Shared.step, Shared.start, Pc.step, hm,
      Detector.loadModel]
  | none =>
    cases hl : env.LoadSavedModel t.modelPath t.modelTags with
    | error err =>
      simp [List.replicate, runSchedule, Shared.step, Shared.start, Pc.step, hm, hl,
        Detector.loadModel]
    | ok model =>
      simp [List.replicate, runSchedule, Shared.step, Shared.start, Pc.step, hm, hl,
        Detector.loadModel]

/-- C9, as amended: `loadModel` has no guard around its check-and-load
sequence. For an unloaded detector with a valid model path, first calls that do
not overlap (the second goroutine moves only after the first has executed its
four statements) make exactly one model load and both return no error with the
labels loaded. When the calls overlap, both can pass the nil check before
either assigns the model, and then the model is loaded twice; and after the
first goroutine has assigned the model and before it has loaded the labels, a
`loadModel` of another goroutine returns no error although the label list is
still the old one. -/
theorem loadModel_unguarded (env : Env) (t : Detector) (tr : Trace) (m : SavedModel) (f : File)
    (labels : List String) (hnil : t.model = none)
    (hmodel : env.LoadSavedModel t.modelPath t.modelTags = .ok m)
    (hopen : env.Open (t.modelPath ++ "/labels.txt") = .ok f)
    (hscan : scanLabels f.readErr t.labels [] f.data = (labels, none)) :
    (∀ a b : Nat, 4 ≤ a → 1 ≤ b →
      runSchedule env (List.replicate a Goroutine.first ++ List.replicate b Goroutine.second)
          (Shared.start t tr) =
        { first := Pc.returned none, second := Pc.returned none,
          t := { t with model := some m, labels := labels },
          tr := tr ++ [Call.LoadSavedModel t.modelPath t.modelTags,
                       Call.Open (t.modelPath ++ "/labels.txt")] }
      ∧ loadCount (runSchedule env
          (List.replicate a Goroutine.first ++ List.replicate b Goroutine.second)
          (Shared.start t tr)).tr = loadCount tr + 1)
    ∧ loadCount (runSchedule env
        [Goroutine.first, Goroutine.second, Goroutine.first, Goroutine.second]
        (Shared.start t tr)).tr = loadCount tr + 2
    ∧ runSchedule env [Goroutine.first, Goroutine.first, Goroutine.first] (Shared.start t tr) =
        { first := Pc.labels, second := Pc.check, t := { t with model := some m },
          tr := tr ++ [Call.LoadSavedModel t.modelPath t.modelTags] }
    ∧ Detector.loadModel env { t with model := some m }
        (tr ++ [Call.LoadSavedModel t.modelPath t.modelTags]) =
        (none, { t with model := some m },
         tr ++ [Call.LoadSavedModel t.modelPath t.modelTags]) := by
  refine ⟨?_, ?_, ?_, ?_⟩
  · intro a b ha hb
    obtain ⟨a1, rfl⟩ : ∃ a1, a = 4 + a1 := ⟨a - 4, by omega⟩
    obtain ⟨b1, rfl⟩ : ∃ b1, b = b1 + 1 := ⟨b - 1, by omega⟩
    have h1 := loadModel_valid env t tr m f labels hnil hmodel hopen hscan
    have h4 := runSchedule_alone env t tr
    rw [h1] at h4
    have hrun : runSchedule env
        (List.replicate (4 + a1) Goroutine.first ++ List.replicate (b1 + 1) Goroutine.second)
        (Shared.start t tr) =
        { first := Pc.returned none, second := Pc.returned none,
          t := { t with model := some m, labels := labels },
          tr := tr ++ [Call.LoadSavedModel t.modelPath t.modelTags,
                       Call.Open (t.modelPath ++ "/labels.txt")] } := by
      rw [List.replicate_add, List.append_assoc, runSchedule_append, h4,
        runSchedule_append, runSchedule_first_returned env a1 _ none rfl,
        List.replicate_succ]
      simp only [runSchedule, Shared.step, Pc.step]
      exact runSchedule_second_returned env b1 _ none rfl
    refine ⟨hrun, ?_⟩
    rw [hrun, loadCount_append]
    simp [loadCount]
  · simp [runSchedule, Shared.step, Shared.start, Pc.step, hnil, hmodel, loadCount]
  · simp [runSchedule, Shared.step, Shared.start, Pc.step, hnil, hmodel]
  · exact loadModel_loaded env _ _ m rfl

/-- C9 as amended, on the stub model directory: the first goroutine runs to
its return before the second one moves. -/
theorem loadModel_unguarded_witness :
    runSchedule (stubEnv (.ok stubLabels) (.ok stubAnswer))
        (List.replicate 4 Goroutine.first ++ List.replicate 4 Goroutine.second)
        (Shared.start (NewDetector "model") []) =
      { first := Pc.returned none, second := Pc.returned none,
        t := { model := some ⟨1⟩, modelPath := "model", modelTags := ["serve"],
               labels := ["drawing", "hentai", "neutral", "porn", "sexy"] },
        tr := [Call.LoadSavedModel "model" ["serve"], Call.Open "model/labels.txt"] }
    ∧ loadCount (runSchedule (stubEnv (.ok stubLabels) (.ok stubAnswer))
        (List.replicate 4 Goroutine.first ++ List.replicate 4 Goroutine.second)
        (Shared.start (NewDetector "model") [])).tr = 0 + 1 :=
  (loadModel_unguarded (stubEnv (.ok stubLabels) (.ok stubAnswer)) (NewDetector "model") []
    ⟨1⟩ stubLabels ["drawing", "hentai", "neutral", "porn", "sexy"] rfl rfl rfl rfl).1
    4 4 (by decide) (by decide)

/-- C9, counterexample: on a fresh detector with the stub model directory, two
goroutines that alternate statement by statement load the model twice (and
append the labels twice); and after the first goroutine has executed three
statements, `Labels` called by another goroutine returns a classification with
a nil error while the model is set and the label list is still empty. -/
theorem concurrent_first_calls_load_twice :
    loadCount (runSchedule (stubEnv (.ok stubLabels) (.ok stubAnswer))
        [Goroutine.first, Goroutine.second, Goroutine.first, Goroutine.second,
         Goroutine.first, Goroutine.second, Goroutine.first, Goroutine.second]
        (Shared.start (NewDetector "model") [])).tr = 2
    ∧ (runSchedule (stubEnv (.ok stubLabels) (.ok stubAnswer))
        [Goroutine.first, Goroutine.second, Goroutine.first, Goroutine.second,
         Goroutine.first, Goroutine.second, Goroutine.first, Goroutine.second]
        (Shared.start (NewDetector "model") [])).t.labels =
        ["drawing", "hentai", "neutral", "porn", "sexy",
         "drawing", "hentai", "neutral", "porn", "sexy"]
    ∧ runSchedule (stubEnv (.ok stubLabels) (.ok stubAnswer))
        [Goroutine.first, Goroutine.first, Goroutine.first]
        (Shared.start (NewDetector "model") []) =
        { first := Pc.labels, second := Pc.check,
          t := { model := some ⟨1⟩, modelPath := "model", modelTags := ["serve"], labels := [] },
          tr := [Call.LoadSavedModel "model" ["serve"]] }
    ∧ Detector.Labels (stubEnv (.ok stubLabels) (.ok stubAnswer))
        { model := some ⟨1⟩, modelPath := "model", modelTags := ["serve"], labels := [] }
        ['x'] [Call.LoadSavedModel "model" ["serve"]] =
        .ok (({ Drawing := f0_1, Hentai := f0_2, Neutral := f0_3, Porn := f0_2, Sexy := f0_2 },
              none),
             { model := some ⟨1⟩, modelPath := "model", modelTags := ["serve"], labels := [] },
             [Call.LoadSavedModel "model" ["serve"], Call.NewSession, Call.SessionRun,
              Call.ModelRun ⟨1⟩]) :=
  ⟨rfl, rfl, rfl, rfl⟩

end Nsfw
